import Mathlib

/-!
# Verification of the `useAgentSession` agent-session client

Shallow embedding of `src/frontend/src/hooks/useAgentSession.js`:
the WebSocket connection manager, the inbound-event dispatcher
(`handleEvent`), the outbound command encoder and the side-channel file
fetcher (`selectFile`), together with proofs about the claims of the
specification.

JavaScript values carried by protocol frames are modelled by `JVal`
(the image of `JSON.parse`, so `undefined` never occurs *inside* a
value; an absent object property is modelled as `Option.none` at the
access site).  Runtime `TypeError`s are modelled by `JsErr`.
-/

/-- A JSON value as produced by `JSON.parse`.  Numbers are modelled as
integers (no claim involves fractional values or NaN). -/
inductive JVal where
  | jnull
  | jbool (b : Bool)
  | jnum (n : Int)
  | jstr (s : String)
  | jarr (elems : List JVal)
  | jobj (fields : List (String × JVal))

/-- A JavaScript runtime exception (`TypeError` etc.). -/
inductive JsErr where
  | typeError (msg : String)
  deriving Repr, DecidableEq

namespace JVal

mutual
/-- Size measure used for termination of the JS-semantics helpers. -/
def jSize : JVal → Nat
  | .jnull => 1
  | .jbool _ => 1
  | .jnum _ => 1
  | .jstr _ => 1
  | .jarr xs => 1 + jSizeL xs
  | .jobj fs => 1 + jSizeF fs

def jSizeL : List JVal → Nat
  | [] => 0
  | x :: t => 1 + jSize x + jSizeL t

def jSizeF : List (String × JVal) → Nat
  | [] => 0
  | (_, v) :: t => 1 + jSize v + jSizeF t
end

/-- JavaScript truthiness of a (defined) value. -/
def truthy : JVal → Bool
  | .jnull => false
  | .jbool b => b
  | .jnum n => n != 0
  | .jstr s => s != ""
  | .jarr _ => true
  | .jobj _ => true

/-- Truthiness of a possibly-`undefined` value (`none` = `undefined`). -/
def truthyOpt (o : Option JVal) : Bool :=
  match o with
  | some v => truthy v
  | none => false

/-- Object-field lookup (object keys are unique in `JSON.parse` output). -/
def getField : List (String × JVal) → String → Option JVal
  | [], _ => none
  | (k, v) :: t, key => if k = key then some v else getField t key

/-- Property access `v.k` on a non-nullish receiver; `none` = `undefined`.
Arrays and strings expose `length`; other primitives have no own
properties relevant to this code. -/
def getPropNN : JVal → String → Option JVal
  | .jobj fs, k => getField fs k
  | .jarr xs, k => if k = "length" then some (.jnum xs.length) else none
  | .jstr s, k => if k = "length" then some (.jnum (s.length : Int)) else none
  | _, _ => none

/-- Evaluation of `a || b` where `a` may be `undefined` and the fallback `b` is defined. -/
def jsOrV (a : Option JVal) (b : JVal) : JVal :=
  match a with
  | some v => if truthy v then v else b
  | none => b

/-- Is this value JS `null`? -/
def isNull : JVal → Bool
  | .jnull => true
  | _ => false

/-- Strict equality `v === "lit"` against a string literal. -/
def eqVStr (v : JVal) (s : String) : Bool :=
  match v with
  | .jstr t => t = s
  | _ => false

/-- Strict equality `o === "lit"` for a possibly-`undefined` value. -/
def eqOptStr (o : Option JVal) (s : String) : Bool :=
  match o with
  | some v => eqVStr v s
  | none => false

/-- JS `SameValueZero` as used by `Array.prototype.includes`.  Objects and
arrays compare by reference; a freshly parsed frame value is never
reference-equal to a previously stored one, so those comparisons are
`false` in every reachable comparison performed by this code. -/
def sameValue : JVal → JVal → Bool
  | .jnull, .jnull => true
  | .jbool a, .jbool b => a == b
  | .jnum a, .jnum b => a == b
  | .jstr a, .jstr b => a == b
  | _, _ => false

mutual
/-- JS `String(v)` conversion (template-literal interpolation). -/
def jsToString : JVal → String
  | .jnull => "null"
  | .jbool b => cond b "true" "false"
  | .jnum n => toString n
  | .jstr s => s
  | .jarr xs => joinComma xs
  | .jobj _ => "[object Object]"
termination_by v => 3 * jSize v
decreasing_by
  all_goals simp_wf <;> simp [jSize, jSizeL, jSizeF] <;> omega

/-- Model of `Array.prototype.join(",")`, the array half of `String(v)`. -/
def joinComma : List JVal → String
  | [] => ""
  | [x] => jElem x
  | x :: y :: rest => jElem x ++ "," ++ joinComma (y :: rest)
termination_by l => 3 * jSizeL l + 2
decreasing_by
  all_goals simp_wf <;> simp [jSize, jSizeL, jSizeF] <;> omega

/-- How `join` renders one element (`null`/`undefined` become `""`). -/
def jElem : JVal → String
  | .jnull => ""
  | .jbool b => jsToString (.jbool b)
  | .jnum n => jsToString (.jnum n)
  | .jstr s => jsToString (.jstr s)
  | .jarr xs => jsToString (.jarr xs)
  | .jobj fs => jsToString (.jobj fs)
termination_by v => 3 * jSize v + 1
decreasing_by
  all_goals simp_wf <;> simp [jSize, jSizeL, jSizeF] <;> omega
end

/-- Conversion `String(o)` for a possibly-`undefined` value. -/
def jsToStringU (o : Option JVal) : String :=
  match o with
  | some v => jsToString v
  | none => "undefined"

/-- Model of `Array.prototype.join(sep)` with an explicit separator
(`msg.files?.join(', ')`). -/
def joinWith (sep : String) : List JVal → String
  | [] => ""
  | [x] => jElem x
  | x :: y :: rest => jElem x ++ sep ++ joinWith sep (y :: rest)

def escapeJson (s : String) : String :=
  s.foldl (fun acc c =>
    if c = '"' then acc ++ "\\\""
    else if c = '\\' then acc ++ "\\\\"
    else acc.push c) ""

mutual
/-- Model of `JSON.stringify` on parsed values. -/
def stringify : JVal → String
  | .jnull => "null"
  | .jbool b => cond b "true" "false"
  | .jnum n => toString n
  | .jstr s => "\"" ++ escapeJson s ++ "\""
  | .jarr xs => "[" ++ stringifyL xs ++ "]"
  | .jobj fs => "\x7b" ++ stringifyF fs ++ "\x7d"
termination_by v => 3 * jSize v
decreasing_by
  all_goals simp_wf <;> simp [jSize, jSizeL, jSizeF] <;> omega

def stringifyL : List JVal → String
  | [] => ""
  | [x] => stringify x
  | x :: y :: rest => stringify x ++ "," ++ stringifyL (y :: rest)
termination_by l => 3 * jSizeL l + 1
decreasing_by
  all_goals simp_wf <;> simp [jSize, jSizeL, jSizeF] <;> omega

def stringifyF : List (String × JVal) → String
  | [] => ""
  | [(k, v)] => "\"" ++ escapeJson k ++ "\":" ++ stringify v
  | (k, v) :: f :: rest =>
      "\"" ++ escapeJson k ++ "\":" ++ stringify v ++ "," ++ stringifyF (f :: rest)
termination_by l => 3 * jSizeF l + 1
decreasing_by
  all_goals simp_wf <;> simp [jSize, jSizeL, jSizeF] <;> omega
end

/-- Substring test: `String.prototype.includes`. -/
def leadsWith : List Char → List Char → Bool
  | [], _ => true
  | _ :: _, [] => false
  | a :: as, b :: bs => a == b && leadsWith as bs

def strHasAux (p : List Char) : List Char → Bool
  | [] => leadsWith p []
  | c :: rest => leadsWith p (c :: rest) || strHasAux p rest

def strHas (s pat : String) : Bool := strHasAux pat.toList s.toList

/-- Evaluation of `recv.includes(pat)` for a string literal `pat`: substring test on
strings, `SameValueZero` membership on arrays, `TypeError` otherwise. -/
def jsIncludes (recv : JVal) (pat : String) : Except JsErr Bool :=
  match recv with
  | .jstr s => .ok (strHas s pat)
  | .jarr xs => .ok (xs.any (fun x => eqVStr x pat))
  | _ => .error (.typeError "includes is not a function")

/-- Lookup via `getPropNN` on an object returns a structurally smaller value. -/
theorem getField_jSize {fs : List (String × JVal)} {k : String} {v : JVal}
    (h : getField fs k = some v) : jSize v < jSize (.jobj fs) := by
  induction fs with
  | nil => simp [getField] at h
  | cons hd t ih =>
    obtain ⟨hk, hv⟩ := hd
    by_cases hkey : hk = k
    · simp [getField, hkey] at h
      subst h
      simp [jSize, jSizeF]
      omega
    · simp [getField, hkey] at h
      have := ih h
      simp [jSize, jSizeF] at this ⊢
      omega

theorem getPropNN_children_jSize {node cv : JVal}
    (h : getPropNN node "children" = some cv) : jSize cv < jSize node := by
  cases node with
  | jobj fs => exact getField_jSize h
  | jarr xs => simp [getPropNN] at h
  | jstr s => simp [getPropNN] at h
  | jnull => simp [getPropNN] at h
  | jbool b => simp [getPropNN] at h
  | jnum n => simp [getPropNN] at h

mutual
/-- Model of the module-level `_countFiles(tree)` helper: counts items in
a nested tree, recursing into `node.children` when it has a truthy
`length`.  `for…of` over a non-iterable value, or a property access on a
`null` node, throws. -/
def countFiles : JVal → Except JsErr Nat
  | .jstr s => .ok s.length
  | .jarr xs => countList xs
  | _ => .error (.typeError "tree is not iterable")
termination_by v => jSize v
decreasing_by
  simp_wf; simp [jSize, jSizeL]; try omega

def countList : List JVal → Except JsErr Nat
  | [] => .ok 0
  | node :: rest =>
    if isNull node then .error (.typeError "cannot read 'children' of null")
    else
      -- `node.children?.length` — a `null` children value short-circuits the
      -- optional chain; `getPropNN .jnull "length" = none` models that, so no
      -- separate `some .jnull` case is needed.
      match h : getPropNN node "children" with
      | some cv =>
        if truthyOpt (getPropNN cv "length") then
          match countFiles cv with
          | .error e => .error e
          | .ok n =>
            match countList rest with
            | .error e => .error e
            | .ok m => .ok (1 + n + m)
        else
          match countList rest with
          | .error e => .error e
          | .ok m => .ok (1 + m)
      | none =>
        match countList rest with
        | .error e => .error e
        | .ok m => .ok (1 + m)
termination_by l => jSizeL l
decreasing_by
  all_goals simp_wf
  all_goals first
    | (have hlt := getPropNN_children_jSize h
       simp [jSizeL]; try omega)
    | (simp [jSizeL]; try omega)
end

end JVal

open JVal

/-! ## Dispatcher state and projections

`DState` bundles exactly the React state the event dispatcher
(`handleEvent`) reads and writes: the chat transcript, the terminal log,
the flat file list, the file tree, the connection `status`/`error`
strings and the `sessionIdRef`.  Entry ids and timestamps (`uid()`,
`Date.now()`) are presentation-only and not modelled; no claim mentions
them. -/

/-- One chat transcript entry.  `content = none` models a JS `undefined`
content value (possible because `pushMessage('agent', msg.content)` in
the `observation` case passes the raw field). -/
structure ChatMsg where
  kind : String
  content : Option JVal

/-- The dispatcher-visible state. -/
structure DState where
  status : String
  messages : List ChatMsg
  terminalLogs : List JVal
  files : List JVal
  fileTree : List JVal
  error : JVal
  sessionId : JVal

/-- Model of `pushMessage(type, content)`. -/
def pushMsgD (kind : String) (content : Option JVal) (d : DState) : DState :=
  { d with messages := d.messages ++ [⟨kind, content⟩] }

/-- Model of `pushLog(content)`. -/
def pushLogD (content : JVal) (d : DState) : DState :=
  { d with terminalLogs := d.terminalLogs ++ [content] }

/-- The frame's `type` discriminator, when it is a string (the `switch`
uses strict comparison, so only string tags select a labelled case). -/
def tagOf (v : JVal) : Option String :=
  match getPropNN v "type" with
  | some (.jstr s) => some s
  | _ => none

/-- Cases `'log'` and `'observation'` of `handleEvent`. -/
def caseLogObs (v : JVal) (d : DState) : Option JsErr × DState :=
  let text := jsOrV (getPropNN v "content")
      (jsOrV (getPropNN v "message") (.jstr (stringify v)))
  let d := pushLogD text d
  let ev := getPropNN v "event"
  let d :=
    if eqOptStr ev "agent_message" || eqOptStr ev "AgentMessageAction" then
      pushMsgD "agent" (getPropNN v "content") d
    else d
  (none, d)

/-- Case `'file_tree'` — wholesale replacement of the tree, then a
terminal summary whose interpolation evaluates `_countFiles(msg.tree)`
(a throw there happens after the tree was already replaced). -/
def caseFileTree (v : JVal) (d : DState) : Option JsErr × DState :=
  match getPropNN v "tree" with
  | some (.jarr xs) =>
    let d := { d with fileTree := xs }
    match countList xs with
    | .ok n =>
      (none, pushLogD (.jstr ("📁 File tree updated (" ++ toString n ++ " items)")) d)
    | .error e => (some e, d)
  | _ => (none, d)

/-- The log-line tail for `case 'file_change'`:
`msg.path || msg.files?.join(', ') || 'unknown'` interpolated. -/
def fileChangeDesc (filesV pathV : Option JVal) : Except JsErr String :=
  match pathV with
  | some p =>
    if truthy p then .ok (jsToString p)
    else
      match filesV with
      | none => .ok "unknown"
      | some .jnull => .ok "unknown"
      | some (.jarr xs) =>
        let j := joinWith ", " xs
        .ok (if j != "" then j else "unknown")
      | some _ => .error (.typeError "files.join is not a function")
  | none =>
    match filesV with
    | none => .ok "unknown"
    | some .jnull => .ok "unknown"
    | some (.jarr xs) =>
      let j := joinWith ", " xs
      .ok (if j != "" then j else "unknown")
    | some _ => .error (.typeError "files.join is not a function")

/-- Case `'file_change'` — replace the flat list when `msg.files` is an
array, otherwise set-like append of a truthy `msg.path`; always log. -/
def caseFileChange (v : JVal) (d : DState) : Option JsErr × DState :=
  let filesV := getPropNN v "files"
  let pathV := getPropNN v "path"
  let d :=
    match filesV with
    | some (.jarr xs) => { d with files := xs }
    | _ =>
      match pathV with
      | some p =>
        if truthy p then
          { d with files :=
              if d.files.any (fun x => sameValue x p) then d.files
              else d.files ++ [p] }
        else d
      | none => d
  match fileChangeDesc filesV pathV with
  | .ok desc => (none, pushLogD (.jstr ("📝 File changed: " ++ desc)) d)
  | .error e => (some e, d)

/-- Evaluation of `eventType.includes('Message') || eventType.includes('Think')`. -/
def agentKindTest (et : JVal) : Except JsErr Bool :=
  match jsIncludes et "Message" with
  | .error e => .error e
  | .ok true => .ok true
  | .ok false => jsIncludes et "Think"

/-- Case `'agent_event'`. -/
def caseAgentEvent (v : JVal) (d : DState) : Option JsErr × DState :=
  let content := jsOrV (getPropNN v "content") (.jstr "")
  let et := jsOrV (getPropNN v "eventType") (jsOrV (getPropNN v "event") (.jstr ""))
  match agentKindTest et with
  | .error e => (some e, d)
  | .ok isMsg =>
    let d := if isMsg then pushMsgD "agent" (some content) d else d
    let d :=
      match getPropNN v "command" with
      | some cv =>
        if truthy cv then pushLogD (.jstr ("$ " ++ jsToString cv)) d else d
      | none => d
    let d := if truthy content then pushLogD content d else d
    let d :=
      match getPropNN v "fileTree" with
      | some (.jarr xs) => { d with files := xs }
      | _ => d
    (none, d)

/-- Case `'status'`. -/
def caseStatus (v : JVal) (d : DState) : Option JsErr × DState :=
  let d := pushLogD (.jstr ("[" ++ jsToStringU (getPropNN v "status") ++ "] "
      ++ jsToString (jsOrV (getPropNN v "message") (.jstr "")))) d
  let d :=
    match getPropNN v "sessionId" with
    | some sv => if truthy sv then { d with sessionId := sv } else d
    | none => d
  let d :=
    if eqOptStr (getPropNN v "status") "ready"
        || eqOptStr (getPropNN v "status") "mock_mode" then
      pushMsgD "system"
        (some (jsOrV (getPropNN v "message") (.jstr "Agent is ready.")))
        { d with status := "connected" }
    else d
  (none, d)

/-- Case `'error'`. -/
def caseError (v : JVal) (d : DState) : Option JsErr × DState :=
  let errMsg := jsOrV (getPropNN v "message") (.jstr "Unknown error")
  let d := { d with error := errMsg, status := "error" }
  let d := pushMsgD "system" (some (.jstr ("⚠️ " ++ jsToString errMsg))) d
  let d := pushLogD (.jstr ("❌ " ++ jsToString errMsg)) d
  (none, d)

/-- The body of `handleEvent` after a successful `JSON.parse`: the
`switch (msg.type)`.  The first component records a thrown `TypeError`
(`none` = normal termination); the second is the state as left behind,
including updates already applied before a throw. -/
def dispatchE (v : JVal) (d : DState) : Option JsErr × DState :=
  if isNull v then
    (some (.typeError "cannot read 'type' of null"), d)
  else
    -- the `switch (msg.type)` selects by strict string comparison; the
    -- shared `case 'log': case 'observation':` fall-through and the
    -- silent `case 'pong': case 'ack':` pair are kept together
    let tag := tagOf v
    if tag = some "log" ∨ tag = some "observation" then caseLogObs v d
    else if tag = some "message" then
      (none, pushMsgD "agent" (some (jsOrV (getPropNN v "content") (.jstr ""))) d)
    else if tag = some "file_tree" then caseFileTree v d
    else if tag = some "file_change" then caseFileChange v d
    else if tag = some "agent_event" then caseAgentEvent v d
    else if tag = some "status" then caseStatus v d
    else if tag = some "complete" then
      (none, pushLogD (.jstr "✅ Task completed")
        (pushMsgD "system" (some (.jstr "✅ Agent task completed.")) d))
    else if tag = some "error" then caseError v d
    else if tag = some "pong" ∨ tag = some "ack" then (none, d)
    else (none, pushLogD (.jstr (stringify v)) d)

/-- Model of `handleEvent(raw)`: a parse failure (`Except.error raw`) degrades to a
terminal-log line carrying the raw text; otherwise the parsed frame is
dispatched.  The state left behind by a throwing dispatch is kept (state
updates already issued before the throw remain applied). -/
def handleEvent (frame : Except String JVal) (d : DState) : DState :=
  match frame with
  | .error raw => pushLogD (.jstr raw) d
  | .ok v => (dispatchE v d).2

/-! ## Connection manager, command encoder, file fetcher

The rest of the hook: refs (`wsRef`, `reconnectCount`, `sessionIdRef`,
`heartbeatRef`), the WebSocket lifecycle handlers installed by
`connect`, and the public API (`startSession`, `sendMessage`,
`stopSession`, `selectFile`).  Timers (`setTimeout` in `ws.onclose`) and
in-flight `fetch` calls are materialised in the state so that the
asynchronous completions can be delivered as explicit events. -/

/-- The handshake frame sent once per connection in `ws.onopen`. -/
structure Handshake where
  token : String
  projectId : String
  modelProvider : String
  repoUrl : String
  task : String
  deriving Repr, DecidableEq

/-- A frame sent by the client over the WebSocket. -/
inductive OutFrame where
  | handshake (h : Handshake)
  | ping
  | action (content : String)
  deriving Repr, DecidableEq

/-- One WebSocket object: its identity, `readyState`
(0 = CONNECTING, 1 = OPEN, 2 = CLOSING, 3 = CLOSED), the `initialTask`
captured by its handlers' closure, its URL, and everything sent on it. -/
structure Sock where
  sid : Nat
  rs : Nat
  task : Option String
  url : String
  sent : List OutFrame
  deriving DecidableEq

/-- A pending reconnect timer (`setTimeout(() => connect(initialTask), 2000)`). -/
structure RTimer where
  tid : Nat
  delayMs : Nat
  task : Option String
  deriving DecidableEq

/-- An in-flight side-channel file read issued by `selectFile`. -/
structure PFetch where
  fid : Nat
  path : String
  sessionParam : String
  deriving DecidableEq

/-- The `activeFile` projection (`{ path, content, loading }`). -/
structure ActiveFile where
  path : String
  content : JVal
  loading : Bool

/-- Environment of one hook instance: the `projectId`/`token` props, the
configured WS base URL, and the `sessionStorage` model-provider entry
(`none` = key absent). -/
structure Config where
  token : String
  projectId : String
  wsBase : String
  modelProviderStore : Option String

/-- Full client state: dispatcher-visible state plus refs, sockets,
timers and fetches.  `timerLog` records the delay of every reconnect
timer ever scheduled (the `setTimeout` effect trace). -/
structure St where
  d : DState
  ws : Option Nat
  socks : List Sock
  reconnectCount : Nat
  heartbeatOn : Bool
  timers : List RTimer
  timerLog : List Nat
  fetches : List PFetch
  activeFile : Option ActiveFile
  nextSock : Nat
  nextTimer : Nat
  nextFetch : Nat

def MAX_RECONNECTS : Nat := 3

/-- Test `[1000, 4001, 4010].includes(event.code)`. -/
def normalCode (c : Int) : Bool :=
  c == 1000 || c == 4001 || c == 4010

def findSock (socks : List Sock) (sid : Nat) : Option Sock :=
  socks.find? (fun sk => sk.sid == sid)

/-- Reads `wsRef.current?.readyState`. -/
def wsReadyState (st : St) : Option Nat :=
  match st.ws with
  | some sid => (findSock st.socks sid).map (·.rs)
  | none => none

/-- Append a frame to a socket's sent list (`ws.send(...)`). -/
def sockSend (sid : Nat) (f : OutFrame) (st : St) : St :=
  { st with socks := st.socks.map (fun sk =>
      if sk.sid = sid then { sk with sent := sk.sent ++ [f] } else sk) }

def setRs (sid : Nat) (r : Nat) (st : St) : St :=
  { st with socks := st.socks.map (fun sk =>
      if sk.sid = sid then { sk with rs := r } else sk) }

/-- Terminal log append at the `St` level. -/
def stLog (c : String) (st : St) : St :=
  { st with d := pushLogD (.jstr c) st.d }

/-- Chat append at the `St` level. -/
def stMsg (kind : String) (content : JVal) (st : St) : St :=
  { st with d := pushMsgD kind (some content) st.d }

/-- Reads `sessionStorage.getItem('lucid_model_provider') || 'google'`. -/
def modelProviderOf (cfg : Config) : String :=
  match cfg.modelProviderStore with
  | some s => if s ≠ "" then s else "google"
  | none => "google"

/-- Model of `connect(initialTask)`: guarded no-op when a socket is already OPEN
or CONNECTING; otherwise transitions to `connecting`, clears the error,
logs, and opens a fresh socket carrying `initialTask` in its closure. -/
def connect (cfg : Config) (task : Option String) (st : St) : St :=
  if wsReadyState st = some 1 ∨ wsReadyState st = some 0 then st
  else
    let st := { st with d := { st.d with status := "connecting", error := .jnull } }
    let st := stLog "🔌 Connecting to AI Engine…" st
    let url := if cfg.token ≠ "" then cfg.wsBase ++ "?token=" ++ cfg.token else cfg.wsBase
    let sk : Sock := { sid := st.nextSock, rs := 0, task := task, url := url, sent := [] }
    { st with socks := st.socks ++ [sk], ws := some sk.sid, nextSock := st.nextSock + 1 }

/-- Handler `ws.onopen`: mark connected, reset the reconnect counter, start the
heartbeat, send the single handshake frame (note `repoUrl: ''`), and log
the task if one was deferred. -/
def onOpen (cfg : Config) (sid : Nat) (st : St) : St :=
  match findSock st.socks sid with
  | none => st
  | some sk =>
    if sk.rs ≠ 0 then st
    else
      let st := setRs sid 1 st
      let st := { st with d := { st.d with status := "connected" }, reconnectCount := 0 }
      let st := stLog "🟢 Connected" st
      let st := { st with heartbeatOn := true }
      let hs : Handshake :=
        { token := cfg.token, projectId := cfg.projectId,
          modelProvider := modelProviderOf cfg, repoUrl := "",
          task := sk.task.getD "" }
      let st := sockSend sid (.handshake hs) st
      match sk.task with
      | some t => if t ≠ "" then stLog ("📨 Task sent: " ++ t.take 80 ++ "…") st else st
      | none => st

/-- Handler `ws.onclose`: clear the ref and heartbeat; normal/terminal codes go
to `idle`; otherwise either schedule a flat 2 s reconnect (budget
permitting) or give up with a terminal error. -/
def onClose (sid : Nat) (code : Int) (reason : String) (st : St) : St :=
  match findSock st.socks sid with
  | none => st
  | some sk =>
    if sk.rs = 3 then st
    else
      let st := setRs sid 3 st
      let st := { st with ws := none, heartbeatOn := false }
      if normalCode code then
        let st := { st with d := { st.d with status := "idle" } }
        stLog ("🔴 Session ended ("
          ++ (if reason ≠ "" then reason else toString code) ++ ")") st
      else if st.reconnectCount < MAX_RECONNECTS then
        let st := { st with reconnectCount := st.reconnectCount + 1 }
        let st := stLog ("🔄 Reconnecting (" ++ toString st.reconnectCount
          ++ "/" ++ toString MAX_RECONNECTS ++ ")…") st
        { st with
          timers := st.timers ++ [{ tid := st.nextTimer, delayMs := 2000, task := sk.task }],
          timerLog := st.timerLog ++ [2000],
          nextTimer := st.nextTimer + 1 }
      else
        let st := { st with d :=
          { st.d with status := "error",
                      error := .jstr "Connection lost after multiple attempts." } }
        stLog "❌ Connection lost" st

/-- A scheduled reconnect timer fires: `() => connect(initialTask)`. -/
def fireTimer (cfg : Config) (tid : Nat) (st : St) : St :=
  match st.timers.find? (fun t => t.tid == tid) with
  | none => st
  | some t =>
    connect cfg t.task { st with timers := st.timers.filter (fun x => x.tid != tid) }

/-- Handler `ws.onerror`: log only. -/
def onSockError (st : St) : St :=
  stLog "⚠️ WebSocket error" st

/-- Handler `ws.onmessage`: run `handleEvent` on the frame (messages are only
delivered on an OPEN socket).  A throw inside the dispatcher escapes to
the event loop; the state updates already issued remain applied. -/
def onMessage (sid : Nat) (frame : Except String JVal) (st : St) : St :=
  match findSock st.socks sid with
  | some sk => if sk.rs = 1 then { st with d := handleEvent frame st.d } else st
  | none => st

/-- The heartbeat interval tick: sends a ping while the socket is OPEN. -/
def hbTickF (st : St) : St :=
  if st.heartbeatOn then
    match st.ws with
    | some sid =>
      match findSock st.socks sid with
      | some sk => if sk.rs = 1 then sockSend sid .ping st else st
      | none => st
    | none => st
  else st

/-- Model of `sendMessageInternal(text)`. -/
def sendMessageInternal (text : String) (st : St) : St :=
  if wsReadyState st ≠ some 1 then
    stLog "⚠️ Not connected — cannot send message" st
  else
    match st.ws with
    | some sid =>
      let st := sockSend sid (.action text) st
      let st := stMsg "user" (.jstr text) st
      stLog ("→ " ++ text) st
    | none => st

/-- Model of `startSession(task)`. -/
def startSession (cfg : Config) (task : Option String) (st : St) : St :=
  if wsReadyState st = some 1 then
    match task with
    | some t => if t ≠ "" then sendMessageInternal t st else st
    | none => st
  else
    let st :=
      match task with
      | some t => if t ≠ "" then stMsg "user" (.jstr t) st else st
      | none => st
    connect cfg task st

/-- Public `sendMessage(text)` wrapper. -/
def sendMessage (cfg : Config) (text : String) (st : St) : St :=
  if text.trim = "" then st
  else if wsReadyState st ≠ some 1 then startSession cfg (some text.trim) st
  else sendMessageInternal text.trim st

/-- Model of `stopSession()`. -/
def stopSession (st : St) : St :=
  let st := { st with heartbeatOn := false }
  let st :=
    match st.ws with
    | some sid =>
      let st :=
        match findSock st.socks sid with
        | some sk => if sk.rs = 0 ∨ sk.rs = 1 then setRs sid 2 st else st
        | none => st
      { st with ws := none }
    | none => st
  let st := { st with d := { st.d with status := "idle" } }
  stLog "🛑 Session stopped" st

/-- Model of `selectFile(path)`, request half: optimistic ActiveFile and an
in-flight read carrying `session_id = String(sessionIdRef.current || '')`. -/
def selectFile (path : String) (st : St) : St :=
  if path = "" then st
  else
    let af : ActiveFile :=
      { path := path,
        content :=
          match st.activeFile with
          | some prev => if prev.path = path then prev.content else .jstr ""
          | none => .jstr "",
        loading := true }
    let st := { st with activeFile := some af }
    let sessParam := jsToString (jsOrV (some st.d.sessionId) (.jstr ""))
    { st with
      fetches := st.fetches ++ [{ fid := st.nextFetch, path := path, sessionParam := sessParam }],
      nextFetch := st.nextFetch + 1 }

/-- The `catch` branch of `selectFile`: log, then update the active file
only if the currently-active path still matches the requested path. -/
def fetchFail (f : PFetch) (m : String) (st : St) : St :=
  let st := stLog ("⚠️ Failed to read " ++ f.path ++ ": " ++ m) st
  { st with activeFile :=
      match st.activeFile with
      | some prev =>
        if prev.path = f.path then
          some { prev with content := .jstr ("// Error loading file: " ++ m), loading := false }
        else some prev
      | none => none }

/-- Completion of an in-flight file read.  On success the active file is
replaced unconditionally with the fetched path's entry
(`setActiveFile({ path, content: data.content || '', loading: false })`);
on failure (`!res.ok` or a network error) the `catch` branch runs.  A
`null` response body makes `data.content` throw inside the `try`, which
lands in the same `catch`. -/
def fetchDoneF (fid : Nat) (outcome : Except String JVal) (st : St) : St :=
  match st.fetches.find? (fun f => f.fid == fid) with
  | none => st
  | some f =>
    let st := { st with fetches := st.fetches.filter (fun x => x.fid != fid) }
    match outcome with
    | .ok data =>
      if isNull data then
        fetchFail f "Cannot read properties of null (reading 'content')" st
      else
        let af : ActiveFile :=
          { path := f.path,
            content := jsOrV (getPropNN data "content") (.jstr ""),
            loading := false }
        { st with activeFile := some af }
    | .error m => fetchFail f m st

/-- The asynchronous events that drive the client. -/
inductive Ev where
  | uStart (task : Option String)
  | uSend (text : String)
  | uStop
  | uSelect (path : String)
  | wsOpen (sid : Nat)
  | wsClose (sid : Nat) (code : Int) (reason : String)
  | wsMsg (sid : Nat) (frame : Except String JVal)
  | wsErr
  | timerFire (tid : Nat)
  | hbTick
  | fetchDone (fid : Nat) (outcome : Except String JVal)

/-- One step of the single-threaded event loop. -/
def step (cfg : Config) (ev : Ev) (st : St) : St :=
  match ev with
  | .uStart task => startSession cfg task st
  | .uSend text => sendMessage cfg text st
  | .uStop => stopSession st
  | .uSelect p => selectFile p st
  | .wsOpen sid => onOpen cfg sid st
  | .wsClose sid code reason => onClose sid code reason st
  | .wsMsg sid frame => onMessage sid frame st
  | .wsErr => onSockError st
  | .timerFire tid => fireTimer cfg tid st
  | .hbTick => hbTickF st
  | .fetchDone fid out => fetchDoneF fid out st

def runEvents (cfg : Config) (evs : List Ev) (st : St) : St :=
  evs.foldl (fun s e => step cfg e s) st

/-- Initial dispatcher state (`useState` initialisers). -/
def initD : DState :=
  { status := "idle", messages := [], terminalLogs := [], files := [],
    fileTree := [], error := .jnull, sessionId := .jnull }

/-- Initial client state. -/
def initSt : St :=
  { d := initD, ws := none, socks := [], reconnectCount := 0,
    heartbeatOn := false, timers := [], timerLog := [], fetches := [],
    activeFile := none, nextSock := 0, nextTimer := 0, nextFetch := 0 }

/-! ## Claim-support definitions -/

/-- A concrete hook environment used by the concrete-trace theorems. -/
def cfg0 : Config :=
  { token := "", projectId := "p1", wsBase := "ws://localhost:8000/ws",
    modelProviderStore := none }

/-- An inbound `file_tree` frame carrying the given tree payload. -/
def mkFileTreeFrame (t : List JVal) : JVal :=
  .jobj [("type", .jstr "file_tree"), ("tree", .jarr t)]

/-- An inbound single-path `file_change` frame. -/
def mkFileChangeFrame (p : String) : JVal :=
  .jobj [("type", .jstr "file_change"), ("path", .jstr p)]

/-- Feed a sequence of already-parsed inbound frames through `handleEvent`. -/
def feedFrames (vs : List JVal) (d : DState) : DState :=
  vs.foldl (fun s v => handleEvent (.ok v) s) d

/-- The item count reported for a tree (0 is unreachable under the
well-formedness hypotheses that accompany its uses). -/
def countOf (t : List JVal) : Nat :=
  match countList t with
  | .ok n => n
  | .error _ => 0

/-- Well-formedness of the `log`/`observation` payload as far as the
dispatcher's chat mirror is concerned: when the frame signals an
agent-facing message, its `content` field is present. -/
def wfLogObs (v : JVal) : Bool :=
  if eqOptStr (getPropNN v "event") "agent_message"
      || eqOptStr (getPropNN v "event") "AgentMessageAction" then
    (getPropNN v "content").isSome
  else true

/-- Did the tree count computation succeed? -/
def exceptOk : Except JsErr Nat → Bool
  | .ok _ => true
  | .error _ => false

def wfTree (v : JVal) : Bool :=
  match getPropNN v "tree" with
  | some (.jarr xs) => exceptOk (countList xs)
  | _ => true

def wfFiles (v : JVal) : Bool :=
  match getPropNN v "files" with
  | some (.jarr _) => true
  | none => true
  | some .jnull => true
  | some _ => truthyOpt (getPropNN v "path")

def wfKind (v : JVal) : Bool :=
  match jsOrV (getPropNN v "eventType") (jsOrV (getPropNN v "event") (.jstr "")) with
  | .jstr _ => true
  | .jarr _ => true
  | _ => false

/-- Frames on which the dispatcher is throw-free and never appends an
`undefined` chat content: the frame is not bare `null`; a `file_tree`
tree traverses without error; a `file_change` without an array `files`
and without a truthy `path` does not reach `.join` on a non-array; an
`agent_event` kind chain evaluates to a string or an array (the only
receivers with `.includes`); and a `log`/`observation` agent-message
mirror has its `content` present. -/
def wfFrame (v : JVal) : Bool :=
  if isNull v then false
  else
    let tag := tagOf v
    if tag = some "log" ∨ tag = some "observation" then wfLogObs v
    else if tag = some "file_tree" then wfTree v
    else if tag = some "file_change" then wfFiles v
    else if tag = some "agent_event" then wfKind v
    else true

/-- Does every handshake frame ever sent carry an empty `repoUrl`? -/
def repoOkB : OutFrame → Bool
  | .handshake h => h.repoUrl == ""
  | _ => true

def allSentOk (st : St) : Bool :=
  st.socks.all (fun sk => sk.sent.all repoOkB)

/-! ## C1 — stale `selectFile` responses -/

/-- C1 (counterexample): `selectFile("a.txt")` then `selectFile("b.txt")`
makes `b.txt` the active path, but when the *successful* read response
for `a.txt` then arrives, the active file is replaced with `a.txt`'s
entry — the stale success response does overwrite the newer selection,
contradicting the claim that a stale response (successful or not) never
overwrites it. -/
theorem selectFile_stale_success_overwrites_cex :
    (runEvents cfg0 [Ev.uSelect "a.txt", Ev.uSelect "b.txt"] initSt).activeFile.map
        ActiveFile.path = some "b.txt"
  ∧ (runEvents cfg0 [Ev.uSelect "a.txt", Ev.uSelect "b.txt",
        Ev.fetchDone 0 (Except.ok (JVal.jobj [("content", JVal.jstr "AAA")]))]
        initSt).activeFile.map ActiveFile.path = some "a.txt" :=
  ⟨rfl, rfl⟩

/-- C1 (amended): the stale-response guard holds for *error* completions
only — if a pending read for path `a` fails after the currently-active
path has moved on (to any path other than `a`), the ActiveFile
projection is left exactly unchanged, so the newer selection survives. -/
theorem fetch_error_preserves_newer_selection (st : St) (f : PFetch) (m : String)
    (hf : st.fetches.find? (fun x => x.fid == f.fid) = some f)
    (hne : st.activeFile.map ActiveFile.path ≠ some f.path) :
    (fetchDoneF f.fid (.error m) st).activeFile = st.activeFile := by
  unfold fetchDoneF
  rw [hf]
  unfold fetchFail
  cases haf : st.activeFile with
  | none => simp [stLog, haf]
  | some prev =>
    have hpp : prev.path ≠ f.path := by
      intro hcontra
      exact hne (by simp [haf, hcontra])
    simp [stLog, haf, hpp]

/-- C1 (witness for the amended theorem). -/
theorem fetch_error_preserves_newer_selection_witness :
    (fetchDoneF 0 (.error "boom")
        (runEvents cfg0 [Ev.uSelect "a.txt", Ev.uSelect "b.txt"] initSt)).activeFile
      = (runEvents cfg0 [Ev.uSelect "a.txt", Ev.uSelect "b.txt"] initSt).activeFile :=
  fetch_error_preserves_newer_selection _
    { fid := 0, path := "a.txt", sessionParam := "" } "boom"
    (by simp [runEvents, step, selectFile, initSt, initD, jsOrV, truthy, jsToString])
    (by decide)

/-! ## C3 — a stale reconnect timer revives a stopped session -/

/-- C3 (divergence witness): after an abnormal close schedules a 2 s
reconnect, an explicit `stopSession()` forces `idle`; yet when the stale
timer fires, the only guard it passes through is the double-connect check
on `wsRef` (nulled by `stopSession`), so it opens a brand-new transport
(socket id 1) and moves the session to `connecting` — the code does not
re-check session state as the specification requires. -/
theorem stale_timer_revives_stopped_session :
    (runEvents cfg0 [Ev.uStart (some "fix"), Ev.wsClose 0 1006 "",
        Ev.uStop, Ev.timerFire 0] initSt).d.status = "connecting"
  ∧ (runEvents cfg0 [Ev.uStart (some "fix"), Ev.wsClose 0 1006 "",
        Ev.uStop, Ev.timerFire 0] initSt).ws = some 1
  ∧ (runEvents cfg0 [Ev.uStart (some "fix"), Ev.wsClose 0 1006 "",
        Ev.uStop] initSt).d.status = "idle"
  ∧ (runEvents cfg0 [Ev.uStart (some "fix"), Ev.wsClose 0 1006 "",
        Ev.uStop] initSt).timers.length = 1 :=
  ⟨rfl, rfl, rfl, rfl⟩

/-! ## C2 — dispatcher safety -/

/-- C2 (counterexample): the dispatcher is *not* throw-free on every
frame — an `agent_event` whose `eventType` is the number `1` makes
`eventType.includes('Message')` throw a `TypeError`; and a `log` frame
flagged `event: "agent_message"` with no `content` appends a chat entry
whose content is the `undefined` value, not the empty string. -/
theorem handleEvent_throw_and_undefined_cex :
    (dispatchE (.jobj [("type", .jstr "agent_event"), ("eventType", .jnum 1)]) initD).1
      = some (JsErr.typeError "includes is not a function")
  ∧ (dispatchE (.jobj [("type", .jstr "log"), ("event", .jstr "agent_message")]) initD).1
      = none
  ∧ ((dispatchE (.jobj [("type", .jstr "log"), ("event", .jstr "agent_message")]) initD).2.messages.map
        ChatMsg.content) = [none] :=
  ⟨rfl, rfl, rfl⟩

@[simp] theorem jsToString_jstr (s : String) : jsToString (.jstr s) = s := by
  simp [jsToString]

/-- Lemma: `handleEvent` owns no socket state: delivering any inbound frame
leaves the transport registry and `wsRef` untouched. -/
theorem onMessage_preserves_transport (sid : Nat) (frame : Except String JVal) (st : St) :
    (onMessage sid frame st).socks = st.socks ∧ (onMessage sid frame st).ws = st.ws := by
  unfold onMessage
  cases findSock st.socks sid with
  | none => exact ⟨rfl, rfl⟩
  | some sk => by_cases h : sk.rs = 1 <;> simp [h]

/-- C8: an inbound error frame sets status to `error`, records the
message, appends a system chat message and a terminal line carrying it,
and leaves the transport untouched. -/
theorem error_frame_surfaces (d : DState) (st : St) (sid : Nat) (m : String) (hm : m ≠ "") :
    (dispatchE (.jobj [("type", .jstr "error"), ("message", .jstr m)]) d).1 = none
  ∧ (dispatchE (.jobj [("type", .jstr "error"), ("message", .jstr m)]) d).2.status = "error"
  ∧ (dispatchE (.jobj [("type", .jstr "error"), ("message", .jstr m)]) d).2.error = .jstr m
  ∧ (dispatchE (.jobj [("type", .jstr "error"), ("message", .jstr m)]) d).2.messages
      = d.messages ++ [⟨"system", some (.jstr ("⚠️ " ++ m))⟩]
  ∧ (dispatchE (.jobj [("type", .jstr "error"), ("message", .jstr m)]) d).2.terminalLogs
      = d.terminalLogs ++ [.jstr ("❌ " ++ m)]
  ∧ (onMessage sid (.ok (.jobj [("type", .jstr "error"), ("message", .jstr m)])) st).socks = st.socks
  ∧ (onMessage sid (.ok (.jobj [("type", .jstr "error"), ("message", .jstr m)])) st).ws = st.ws := by
  refine ⟨?_, ?_, ?_, ?_, ?_,
    (onMessage_preserves_transport _ _ _).1, (onMessage_preserves_transport _ _ _).2⟩
  all_goals
    simp [dispatchE, isNull, tagOf, getPropNN, getField, caseError, jsOrV, truthy, hm,
          pushMsgD, pushLogD]

/-- C8 (witness). -/
theorem error_frame_surfaces_witness :
    (dispatchE (.jobj [("type", .jstr "error"), ("message", .jstr "OOM")]) initD).2.status
      = "error" :=
  (error_frame_surfaces initD initSt 0 "OOM" (by decide)).2.1

/-- C9: a transport close with a designated normal/terminal code
(1000, 4001, 4010) moves the session to `idle` and schedules nothing:
the pending-timer set and the record of ever-scheduled reconnect delays
are exactly unchanged, whatever the remaining reconnect budget is. -/
theorem normal_close_idle_no_reconnect (sid : Nat) (code : Int) (reason : String)
    (st : St) (sk : Sock)
    (hfind : findSock st.socks sid = some sk) (hrs : sk.rs ≠ 3)
    (hcode : normalCode code = true) :
    (onClose sid code reason st).d.status = "idle"
  ∧ (onClose sid code reason st).timers = st.timers
  ∧ (onClose sid code reason st).timerLog = st.timerLog := by
  unfold onClose
  rw [hfind]
  simp [hrs, hcode, setRs, stLog, pushLogD]

/-- C9 (witness). -/
theorem normal_close_idle_no_reconnect_witness :
    (onClose 0 1000 "bye" (runEvents cfg0 [Ev.uStart (some "t")] initSt)).d.status = "idle" :=
  (normal_close_idle_no_reconnect 0 1000 "bye" _
    { sid := 0, rs := 0, task := some "t", url := "ws://localhost:8000/ws", sent := [] }
    (by decide) (by decide) (by decide)).1

/-- C6: a single-path `file_change` frame whose path is already present
in the flat list leaves it exactly unchanged; a new path is appended
exactly once at the end; and processing the same frame twice yields the
same list as processing it once. -/
theorem file_change_single_path_set_insert (p : String) (d : DState) (hp : p ≠ "") :
    ((dispatchE (mkFileChangeFrame p) d).2.files
      = if d.files.any (fun x => sameValue x (.jstr p)) then d.files
        else d.files ++ [.jstr p])
  ∧ ((dispatchE (mkFileChangeFrame p) (dispatchE (mkFileChangeFrame p) d).2).2.files
      = (dispatchE (mkFileChangeFrame p) d).2.files) := by
  have hstep : ∀ d' : DState, (dispatchE (mkFileChangeFrame p) d').2.files
      = if d'.files.any (fun x => sameValue x (.jstr p)) then d'.files
        else d'.files ++ [.jstr p] := by
    intro d'
    simp [dispatchE, mkFileChangeFrame, isNull, tagOf, getPropNN, getField,
          caseFileChange, fileChangeDesc, truthy, hp, pushLogD]
  refine ⟨hstep d, ?_⟩
  simp only [hstep]
  by_cases hb : d.files.any (fun x => sameValue x (.jstr p)) = true
  · simp [hb]
  · have hcond : ((d.files ++ [JVal.jstr p]).any fun x => sameValue x (JVal.jstr p)) = true := by
      simp [List.any_append, sameValue]
    simp [hb, hcond]

/-- C6 (witness). -/
theorem file_change_single_path_set_insert_witness :
    (dispatchE (mkFileChangeFrame "src/main.py") initD).2.files = [.jstr "src/main.py"] := by
  have h := (file_change_single_path_set_insert "src/main.py" initD (by decide)).1
  simpa [initD] using h

/-! ## C4 — bounded flat-interval reconnection -/

set_option maxHeartbeats 2000000 in
/-- C4: with `MAX_RECONNECTS = 3` and a transport that never opens —
every attempt ends in a close with a non-normal code — the client
schedules exactly three reconnect timers, each with the flat 2000 ms
delay (`timerLog`), opens 4 sockets in total (the initial attempt plus
3 retries, `nextSock`), and after the 4th failed attempt the status is
`error` with the message `"Connection lost after multiple attempts."`
and no timer remains pending. -/
theorem reconnect_budget_exhausted (task : Option String)
    (c1 c2 c3 c4 : Int) (r1 r2 r3 r4 : String)
    (h1 : normalCode c1 = false) (h2 : normalCode c2 = false)
    (h3 : normalCode c3 = false) (h4 : normalCode c4 = false) :
    (runEvents cfg0 [Ev.uStart task, Ev.wsClose 0 c1 r1, Ev.timerFire 0,
        Ev.wsClose 1 c2 r2, Ev.timerFire 1, Ev.wsClose 2 c3 r3,
        Ev.timerFire 2, Ev.wsClose 3 c4 r4] initSt).d.status = "error"
  ∧ (runEvents cfg0 [Ev.uStart task, Ev.wsClose 0 c1 r1, Ev.timerFire 0,
        Ev.wsClose 1 c2 r2, Ev.timerFire 1, Ev.wsClose 2 c3 r3,
        Ev.timerFire 2, Ev.wsClose 3 c4 r4] initSt).d.error
      = .jstr "Connection lost after multiple attempts."
  ∧ (runEvents cfg0 [Ev.uStart task, Ev.wsClose 0 c1 r1, Ev.timerFire 0,
        Ev.wsClose 1 c2 r2, Ev.timerFire 1, Ev.wsClose 2 c3 r3,
        Ev.timerFire 2, Ev.wsClose 3 c4 r4] initSt).timerLog = [2000, 2000, 2000]
  ∧ (runEvents cfg0 [Ev.uStart task, Ev.wsClose 0 c1 r1, Ev.timerFire 0,
        Ev.wsClose 1 c2 r2, Ev.timerFire 1, Ev.wsClose 2 c3 r3,
        Ev.timerFire 2, Ev.wsClose 3 c4 r4] initSt).timers = []
  ∧ (runEvents cfg0 [Ev.uStart task, Ev.wsClose 0 c1 r1, Ev.timerFire 0,
        Ev.wsClose 1 c2 r2, Ev.timerFire 1, Ev.wsClose 2 c3 r3,
        Ev.timerFire 2, Ev.wsClose 3 c4 r4] initSt).nextSock = 4 := by
  cases task with
  | none =>
    refine ⟨?_, ?_, ?_, ?_, ?_⟩ <;>
      simp [runEvents, step, startSession, sendMessageInternal, connect, stopSession,
            onClose, fireTimer, wsReadyState, findSock, setRs, stLog, stMsg,
            pushLogD, pushMsgD, initSt, initD, cfg0, h1, h2, h3, h4,
            MAX_RECONNECTS, List.find?, List.filter]
  | some t =>
    rcases eq_or_ne t "" with ht | ht
    · subst ht
      refine ⟨?_, ?_, ?_, ?_, ?_⟩ <;>
        simp [runEvents, step, startSession, sendMessageInternal, connect, stopSession,
              onClose, fireTimer, wsReadyState, findSock, setRs, stLog, stMsg,
              pushLogD, pushMsgD, initSt, initD, cfg0, h1, h2, h3, h4,
              MAX_RECONNECTS, List.find?, List.filter]
    · refine ⟨?_, ?_, ?_, ?_, ?_⟩ <;>
        simp [runEvents, step, startSession, sendMessageInternal, connect, stopSession,
              onClose, fireTimer, wsReadyState, findSock, setRs, stLog, stMsg,
              pushLogD, pushMsgD, initSt, initD, cfg0, h1, h2, h3, h4, ht,
              MAX_RECONNECTS, List.find?, List.filter]

/-- C4 (witness). -/
theorem reconnect_budget_exhausted_witness :
    (runEvents cfg0 [Ev.uStart (some "t"), Ev.wsClose 0 1006 "", Ev.timerFire 0,
        Ev.wsClose 1 1006 "", Ev.timerFire 1, Ev.wsClose 2 1006 "",
        Ev.timerFire 2, Ev.wsClose 3 1006 ""] initSt).d.status = "error" :=
  (reconnect_budget_exhausted (some "t") 1006 1006 1006 1006 "" "" "" ""
    rfl rfl rfl rfl).1

/-! ## C7 — handshake and ready status -/

set_option maxHeartbeats 2000000 in
/-- C7: `startSession(t)` with a non-empty task while idle opens one
transport and, on open, sends exactly one handshake frame whose `task`
field is `t`; a subsequent inbound
`{type:"status", status:"ready", sessionId:"s1"}` frame makes the status
`connected`, appends a system chat message, and installs `"s1"` as the
correlation id that the next `selectFile` read sends as its
`session_id` parameter. -/
theorem start_sends_one_handshake_then_ready (cfg : Config) (t : String) (ht : t ≠ "") :
    ((findSock (runEvents cfg [Ev.uStart (some t), Ev.wsOpen 0,
        Ev.wsMsg 0 (.ok (.jobj [("type", .jstr "status"), ("status", .jstr "ready"),
          ("sessionId", .jstr "s1")])), Ev.uSelect "f.py"] initSt).socks 0).map Sock.sent)
      = some [OutFrame.handshake
          { token := cfg.token, projectId := cfg.projectId,
            modelProvider := modelProviderOf cfg, repoUrl := "", task := t }]
  ∧ (runEvents cfg [Ev.uStart (some t), Ev.wsOpen 0,
        Ev.wsMsg 0 (.ok (.jobj [("type", .jstr "status"), ("status", .jstr "ready"),
          ("sessionId", .jstr "s1")])), Ev.uSelect "f.py"] initSt).d.status = "connected"
  ∧ (runEvents cfg [Ev.uStart (some t), Ev.wsOpen 0,
        Ev.wsMsg 0 (.ok (.jobj [("type", .jstr "status"), ("status", .jstr "ready"),
          ("sessionId", .jstr "s1")])), Ev.uSelect "f.py"] initSt).d.sessionId = .jstr "s1"
  ∧ (runEvents cfg [Ev.uStart (some t), Ev.wsOpen 0,
        Ev.wsMsg 0 (.ok (.jobj [("type", .jstr "status"), ("status", .jstr "ready"),
          ("sessionId", .jstr "s1")])), Ev.uSelect "f.py"] initSt).d.messages
      = [⟨"user", some (.jstr t)⟩, ⟨"system", some (.jstr "Agent is ready.")⟩]
  ∧ (runEvents cfg [Ev.uStart (some t), Ev.wsOpen 0,
        Ev.wsMsg 0 (.ok (.jobj [("type", .jstr "status"), ("status", .jstr "ready"),
          ("sessionId", .jstr "s1")])), Ev.uSelect "f.py"] initSt).fetches.map
        PFetch.sessionParam = ["s1"] := by
  refine ⟨?_, ?_, ?_, ?_, ?_⟩ <;>
    simp [runEvents, step, startSession, sendMessageInternal, connect, onOpen, onMessage,
          selectFile, handleEvent, dispatchE, caseStatus, wsReadyState, findSock, setRs,
          sockSend, stLog, stMsg, pushLogD, pushMsgD, initSt, initD, ht,
          isNull, tagOf, getPropNN, getField, jsOrV, truthy, eqOptStr, eqVStr,
          jsToStringU, List.find?]

/-- C7 (witness). -/
theorem start_sends_one_handshake_then_ready_witness :
    (runEvents cfg0 [Ev.uStart (some "fix the bug"), Ev.wsOpen 0,
        Ev.wsMsg 0 (.ok (.jobj [("type", .jstr "status"), ("status", .jstr "ready"),
          ("sessionId", .jstr "s1")])), Ev.uSelect "f.py"] initSt).d.status = "connected" :=
  (start_sends_one_handshake_then_ready cfg0 "fix the bug" (by decide)).2.1

/-! ## C5 — wholesale file-tree replacement -/

theorem feedFrames_cons (v : JVal) (vs : List JVal) (d : DState) :
    feedFrames (v :: vs) d = feedFrames vs (handleEvent (.ok v) d) := rfl

/-- Effect of one well-formed `file_tree` frame: the tree is replaced
wholesale and one summary line with the recursive item count is logged. -/
theorem file_tree_step (t : List JVal) (d : DState) (n : Nat)
    (h : countList t = .ok n) :
    handleEvent (.ok (mkFileTreeFrame t)) d
      = { d with fileTree := t,
                 terminalLogs := d.terminalLogs
                   ++ [.jstr ("📁 File tree updated (" ++ toString n ++ " items)")] } := by
  simp [handleEvent, dispatchE, mkFileTreeFrame, isNull, tagOf, getPropNN, getField,
        caseFileTree, h, pushLogD]

/-- C5: for every non-empty sequence of `file_tree` frames whose tree
payloads traverse without error, the FileTree projection after the whole
sequence equals exactly the payload of the last frame (wholesale
replacement, never a merge), and each frame appends exactly one
terminal-log summary carrying its recursive item count. -/
theorem file_tree_wholesale_replace (ts : List (List JVal)) (d : DState)
    (hok : ∀ t ∈ ts, ∃ n, countList t = Except.ok n) (hne : ts ≠ []) :
    (feedFrames (ts.map mkFileTreeFrame) d).fileTree = ts.getLast hne
  ∧ (feedFrames (ts.map mkFileTreeFrame) d).terminalLogs
      = d.terminalLogs ++ ts.map (fun t =>
          .jstr ("📁 File tree updated (" ++ toString (countOf t) ++ " items)")) := by
  induction ts generalizing d with
  | nil => exact absurd rfl hne
  | cons t rest ih =>
    have hht : countList t = Except.ok (countOf t) := by
      obtain ⟨n, hn⟩ := hok t (List.mem_cons_self t _)
      unfold countOf
      rw [hn]
    have hstep := file_tree_step t d (countOf t) hht
    cases rest with
    | nil =>
      refine ⟨?_, ?_⟩ <;> simp [feedFrames, hstep]
    | cons t2 rest2 =>
      have hok' : ∀ x ∈ t2 :: rest2, ∃ n, countList x = Except.ok n := by
        intro x hx
        exact hok x (List.mem_cons_of_mem _ hx)
      have hne2 : (t2 :: rest2 : List (List JVal)) ≠ [] := by simp
      obtain ⟨ih1, ih2⟩ := ih (handleEvent (.ok (mkFileTreeFrame t)) d) hok' hne2
      constructor
      · rw [List.map_cons, feedFrames_cons]
        rw [ih1]
        simp [List.getLast_cons]
      · rw [List.map_cons, feedFrames_cons]
        rw [ih2, hstep]
        simp

/-- C5 (witness). -/
theorem file_tree_wholesale_replace_witness :
    (feedFrames ([[JVal.jstr "a"], []].map mkFileTreeFrame) initD).fileTree = [] :=
  (file_tree_wholesale_replace [[JVal.jstr "a"], []] initD
    (by intro t ht
        fin_cases ht
        · exact ⟨1, by simp [countList, getPropNN, isNull]⟩
        · exact ⟨0, by simp [countList]⟩)
    (List.cons_ne_nil _ _)).1

/-! ## C2 — dispatcher safety on well-formed frames (amended) -/

theorem jsOrV_of_falsy (o : Option JVal) (b : JVal) (h : truthyOpt o = false) :
    jsOrV o b = b := by
  cases o with
  | none => rfl
  | some v => simp [truthyOpt] at h; simp [jsOrV, h]

/-- Effects of the `'log'`/`'observation'` cases on the chat transcript. -/
theorem caseLogObs_spec (v : JVal) (d : DState) :
    (caseLogObs v d).1 = none
  ∧ (caseLogObs v d).2.messages
      = (if eqOptStr (getPropNN v "event") "agent_message"
            || eqOptStr (getPropNN v "event") "AgentMessageAction"
         then d.messages ++ [⟨"agent", getPropNN v "content"⟩] else d.messages) := by
  by_cases hc : (eqOptStr (getPropNN v "event") "agent_message"
      || eqOptStr (getPropNN v "event") "AgentMessageAction") = true
  · constructor <;> simp [caseLogObs, hc, pushLogD, pushMsgD]
  · constructor <;> simp [caseLogObs, hc, pushLogD, pushMsgD]

/-- A well-formed tree payload makes `case 'file_tree'` throw-free and
chat-silent. -/
theorem caseFileTree_spec (v : JVal) (d : DState) (h : wfTree v = true) :
    (caseFileTree v d).1 = none ∧ (caseFileTree v d).2.messages = d.messages := by
  unfold caseFileTree
  unfold wfTree at h
  rcases hgp : getPropNN v "tree" with _ | cv
  · simp
  · rw [hgp] at h
    cases cv with
    | jarr xs =>
      rcases hce : countList xs with e | n
      · simp [hce, exceptOk] at h
      · simp only [hce]; simp [pushLogD]
    | jnull => simp
    | jbool b => simp
    | jnum n => simp
    | jstr s => simp
    | jobj fs => simp

/-- A well-formed `file_change` payload makes the log-line description
computation succeed. -/
theorem fileChangeDesc_ok (v : JVal) (h : wfFiles v = true) :
    ∃ s, fileChangeDesc (getPropNN v "files") (getPropNN v "path") = .ok s := by
  unfold wfFiles at h
  unfold fileChangeDesc
  rcases hp : getPropNN v "path" with _ | p
  · rcases hf : getPropNN v "files" with _ | fv
    · exact ⟨_, rfl⟩
    · rw [hf] at h
      cases fv with
      | jarr xs => exact ⟨_, rfl⟩
      | jnull => exact ⟨_, rfl⟩
      | jbool b => rw [hp] at h; simp [truthyOpt] at h
      | jnum n => rw [hp] at h; simp [truthyOpt] at h
      | jstr s => rw [hp] at h; simp [truthyOpt] at h
      | jobj fs => rw [hp] at h; simp [truthyOpt] at h
  · by_cases ht : truthy p = true
    · simp [ht]
    · rcases hf : getPropNN v "files" with _ | fv
      · simp [ht]
      · rw [hf] at h
        cases fv with
        | jarr xs => simp [ht]
        | jnull => simp [ht]
        | jbool b => rw [hp] at h; simp [truthyOpt, ht] at h
        | jnum n => rw [hp] at h; simp [truthyOpt, ht] at h
        | jstr s => rw [hp] at h; simp [truthyOpt, ht] at h
        | jobj fs => rw [hp] at h; simp [truthyOpt, ht] at h

/-- A well-formed `file_change` frame is throw-free and chat-silent. -/
theorem caseFileChange_spec (v : JVal) (d : DState) (h : wfFiles v = true) :
    (caseFileChange v d).1 = none ∧ (caseFileChange v d).2.messages = d.messages := by
  obtain ⟨s, hs⟩ := fileChangeDesc_ok v h
  simp only [caseFileChange]
  rw [hs]
  rcases hf : getPropNN v "files" with _ | fv
  · rcases hp : getPropNN v "path" with _ | p
    · simp [pushLogD]
    · by_cases ht : truthy p = true <;> simp [ht, pushLogD]
  · cases fv <;>
      first
      | (rcases hp : getPropNN v "path" with _ | p
         · simp [pushLogD]
         · by_cases ht : truthy p = true <;> simp [ht, pushLogD])
      | simp [pushLogD]

/-- A string or array event-kind makes the `includes` test succeed. -/
theorem agentKindTest_ok (et : JVal) (h : (match et with
    | JVal.jstr _ => true | JVal.jarr _ => true | _ => false) = true) :
    ∃ b, agentKindTest et = .ok b := by
  cases et with
  | jstr s =>
    unfold agentKindTest
    rcases hi : jsIncludes (JVal.jstr s) "Message" with e | b
    · simp [jsIncludes] at hi
    · cases b
      · simp [jsIncludes] at hi ⊢
      · exact ⟨_, rfl⟩
  | jarr xs =>
    unfold agentKindTest
    rcases hi : jsIncludes (JVal.jarr xs) "Message" with e | b
    · simp [jsIncludes] at hi
    · cases b
      · simp [jsIncludes] at hi ⊢
      · exact ⟨_, rfl⟩
  | jnull => simp at h
  | jbool b => simp at h
  | jnum n => simp at h
  | jobj fs => simp at h

/-- A well-formed `agent_event` frame is throw-free and its chat effect
is exactly one agent entry with defined content when the kind test
passes, nothing otherwise. -/
theorem caseAgentEvent_spec (v : JVal) (d : DState) (b : Bool)
    (hb : agentKindTest (jsOrV (getPropNN v "eventType")
            (jsOrV (getPropNN v "event") (.jstr ""))) = .ok b) :
    (caseAgentEvent v d).1 = none
  ∧ (caseAgentEvent v d).2.messages
      = (if b then
          d.messages ++ [⟨"agent", some (jsOrV (getPropNN v "content") (.jstr ""))⟩]
         else d.messages) := by
  constructor
  · simp only [caseAgentEvent]
    rw [hb]
    repeat' split
    all_goals simp_all
  · simp only [caseAgentEvent]
    rw [hb]
    cases b
    all_goals repeat' split
    all_goals simp_all [pushLogD, pushMsgD]

/-- Case `'status'` is throw-free and its chat effect is exactly one
system entry (with defined content) when the status denotes readiness. -/
theorem caseStatus_spec (v : JVal) (d : DState) :
    (caseStatus v d).1 = none
  ∧ (caseStatus v d).2.messages
      = (if (eqOptStr (getPropNN v "status") "ready"
            || eqOptStr (getPropNN v "status") "mock_mode") then
          d.messages
            ++ [⟨"system", some (jsOrV (getPropNN v "message") (.jstr "Agent is ready."))⟩]
         else d.messages) := by
  constructor
  · simp only [caseStatus]
    repeat' split
    all_goals rfl
  · simp only [caseStatus]
    repeat' split
    all_goals simp_all [pushLogD, pushMsgD]

/-- Case `'error'` is throw-free and appends exactly one system chat
entry with defined content. -/
theorem caseError_spec (v : JVal) (d : DState) :
    (caseError v d).1 = none
  ∧ (caseError v d).2.messages
      = d.messages ++ [⟨"system",
          some (.jstr ("⚠️ " ++ jsToString (jsOrV (getPropNN v "message")
            (.jstr "Unknown error"))))⟩] := by
  constructor
  · rfl
  · simp [caseError, pushLogD, pushMsgD]

set_option maxHeartbeats 1000000 in
/-- C2 (amended): `handleEvent` never throws on a *well-formed* frame
(`wfFrame`): dispatch terminates normally and every chat entry it
appends carries a defined (non-`undefined`) content value; moreover a
`message` frame with absent-or-falsy `content` appends exactly one agent
chat entry whose content is the empty string.  (The unrestricted claim
is refuted by `handleEvent_throw_and_undefined_cex`: a non-string
`eventType`, a `null` tree node or a non-array `files` payload throws,
and the `log`/`observation` agent-message mirror forwards a raw absent
`content` as `undefined`.) -/
theorem dispatch_wf_safe (v : JVal) (d : DState) (h : wfFrame v = true) :
    (dispatchE v d).1 = none
  ∧ (∀ m ∈ (dispatchE v d).2.messages, m ∈ d.messages ∨ m.content.isSome = true)
  ∧ (tagOf v = some "message" → truthyOpt (getPropNN v "content") = false →
      (dispatchE v d).2.messages = d.messages ++ [⟨"agent", some (.jstr "")⟩]) := by
  have hn : isNull v = false := by
    rcases hh : isNull v
    · rfl
    · unfold wfFrame at h; rw [hh] at h; simp at h
  by_cases h1 : tagOf v = some "log" ∨ tagOf v = some "observation"
  · have hwf : wfLogObs v = true := by
      unfold wfFrame at h; rw [hn] at h; simpa [h1] using h
    have hd : dispatchE v d = caseLogObs v d := by
      unfold dispatchE; rw [hn]; simp [h1]
    rw [hd]
    refine ⟨(caseLogObs_spec v d).1, ?_, ?_⟩
    · intro m hm
      rw [(caseLogObs_spec v d).2] at hm
      by_cases hc : (eqOptStr (getPropNN v "event") "agent_message"
          || eqOptStr (getPropNN v "event") "AgentMessageAction") = true
      · rw [if_pos hc] at hm
        rcases List.mem_append.mp hm with hmm | hmm
        · exact Or.inl hmm
        · right
          have hme : m = ⟨"agent", getPropNN v "content"⟩ := by simpa using hmm
          rw [hme]
          unfold wfLogObs at hwf
          rw [if_pos hc] at hwf
          simpa using hwf
      · rw [if_neg hc] at hm; exact Or.inl hm
    · intro hmsg
      rcases h1 with h1 | h1 <;> rw [h1] at hmsg <;> simp at hmsg
  · by_cases h2 : tagOf v = some "message"
    · have hd : dispatchE v d
          = (none, pushMsgD "agent" (some (jsOrV (getPropNN v "content") (.jstr ""))) d) := by
        unfold dispatchE; rw [hn]; simp [h1, h2]
      rw [hd]
      refine ⟨rfl, ?_, ?_⟩
      · intro m hm
        simp only [pushMsgD] at hm
        rcases List.mem_append.mp hm with hmm | hmm
        · exact Or.inl hmm
        · right
          have hme : m = ⟨"agent", some (jsOrV (getPropNN v "content") (.jstr ""))⟩ := by
            simpa using hmm
          rw [hme]; rfl
      · intro _ hfalsy
        simp [pushMsgD, jsOrV_of_falsy _ _ hfalsy]
    · by_cases h3 : tagOf v = some "file_tree"
      · have hwf : wfTree v = true := by
          unfold wfFrame at h; rw [hn] at h; simpa [h1, h2, h3] using h
        have hd : dispatchE v d = caseFileTree v d := by
          unfold dispatchE; rw [hn]; simp [h1, h2, h3]
        rw [hd]
        refine ⟨(caseFileTree_spec v d hwf).1, ?_, fun hmsg => absurd hmsg h2⟩
        intro m hm
        rw [(caseFileTree_spec v d hwf).2] at hm
        exact Or.inl hm
      · by_cases h4 : tagOf v = some "file_change"
        · have hwf : wfFiles v = true := by
            unfold wfFrame at h; rw [hn] at h; simpa [h1, h2, h3, h4] using h
          have hd : dispatchE v d = caseFileChange v d := by
            unfold dispatchE; rw [hn]; simp [h1, h2, h3, h4]
          rw [hd]
          refine ⟨(caseFileChange_spec v d hwf).1, ?_, fun hmsg => absurd hmsg h2⟩
          intro m hm
          rw [(caseFileChange_spec v d hwf).2] at hm
          exact Or.inl hm
        · by_cases h5 : tagOf v = some "agent_event"
          · have hwf : wfKind v = true := by
              unfold wfFrame at h; rw [hn] at h; simpa [h1, h2, h3, h4, h5] using h
            unfold wfKind at hwf
            obtain ⟨b, hb⟩ := agentKindTest_ok _ hwf
            have hd : dispatchE v d = caseAgentEvent v d := by
              unfold dispatchE; rw [hn]; simp [h1, h2, h3, h4, h5]
            rw [hd]
            refine ⟨(caseAgentEvent_spec v d b hb).1, ?_, fun hmsg => absurd hmsg h2⟩
            intro m hm
            rw [(caseAgentEvent_spec v d b hb).2] at hm
            by_cases hbb : b = true
            · rw [if_pos hbb] at hm
              rcases List.mem_append.mp hm with hmm | hmm
              · exact Or.inl hmm
              · right
                have hme : m = ⟨"agent",
                    some (jsOrV (getPropNN v "content") (.jstr ""))⟩ := by simpa using hmm
                rw [hme]; rfl
            · rw [if_neg hbb] at hm; exact Or.inl hm
          · by_cases h6 : tagOf v = some "status"
            · have hd : dispatchE v d = caseStatus v d := by
                unfold dispatchE; rw [hn]; simp [h1, h2, h3, h4, h5, h6]
              rw [hd]
              refine ⟨(caseStatus_spec v d).1, ?_, fun hmsg => absurd hmsg h2⟩
              intro m hm
              rw [(caseStatus_spec v d).2] at hm
              by_cases hc : (eqOptStr (getPropNN v "status") "ready"
                  || eqOptStr (getPropNN v "status") "mock_mode") = true
              · rw [if_pos hc] at hm
                rcases List.mem_append.mp hm with hmm | hmm
                · exact Or.inl hmm
                · right
                  have hme : m = ⟨"system", some (jsOrV (getPropNN v "message")
                      (.jstr "Agent is ready."))⟩ := by simpa using hmm
                  rw [hme]; rfl
              · rw [if_neg hc] at hm; exact Or.inl hm
            · by_cases h7 : tagOf v = some "complete"
              · have hd : dispatchE v d
                    = (none, pushLogD (.jstr "✅ Task completed")
                        (pushMsgD "system" (some (.jstr "✅ Agent task completed.")) d)) := by
                  unfold dispatchE; rw [hn]; simp [h1, h2, h3, h4, h5, h6, h7]
                rw [hd]
                refine ⟨rfl, ?_, fun hmsg => absurd hmsg h2⟩
                intro m hm
                simp only [pushLogD, pushMsgD] at hm
                rcases List.mem_append.mp hm with hmm | hmm
                · exact Or.inl hmm
                · right
                  have hme : m = ⟨"system", some (.jstr "✅ Agent task completed.")⟩ := by
                    simpa using hmm
                  rw [hme]; rfl
              · by_cases h8 : tagOf v = some "error"
                · have hd : dispatchE v d = caseError v d := by
                    unfold dispatchE; rw [hn]; simp [h1, h2, h3, h4, h5, h6, h7, h8]
                  rw [hd]
                  refine ⟨(caseError_spec v d).1, ?_, fun hmsg => absurd hmsg h2⟩
                  intro m hm
                  rw [(caseError_spec v d).2] at hm
                  rcases List.mem_append.mp hm with hmm | hmm
                  · exact Or.inl hmm
                  · right
                    have hme : m = ⟨"system", some (.jstr ("⚠️ "
                        ++ jsToString (jsOrV (getPropNN v "message")
                          (.jstr "Unknown error"))))⟩ := by simpa using hmm
                    rw [hme]; rfl
                · by_cases h9 : tagOf v = some "pong" ∨ tagOf v = some "ack"
                  · have hd : dispatchE v d = (none, d) := by
                      unfold dispatchE; rw [hn]; simp [h1, h2, h3, h4, h5, h6, h7, h8, h9]
                    rw [hd]
                    exact ⟨rfl, fun m hm => Or.inl hm, fun hmsg => absurd hmsg h2⟩
                  · have hd : dispatchE v d = (none, pushLogD (.jstr (stringify v)) d) := by
                      unfold dispatchE; rw [hn]; simp [h1, h2, h3, h4, h5, h6, h7, h8, h9]
                    rw [hd]
                    refine ⟨rfl, ?_, fun hmsg => absurd hmsg h2⟩
                    intro m hm
                    simp only [pushLogD] at hm
                    exact Or.inl hm

/-- C2 (witness for the amended theorem). -/
theorem dispatch_wf_safe_witness :
    (dispatchE (.jobj [("type", .jstr "message")]) initD).1 = none :=
  (dispatch_wf_safe (.jobj [("type", .jstr "message")]) initD rfl).1

/-! ## C10 — every handshake carries an empty `repoUrl` -/

theorem allSentOk_iff (st : St) :
    allSentOk st = true ↔ ∀ sk ∈ st.socks, ∀ f ∈ sk.sent, repoOkB f = true := by
  simp [allSentOk, List.all_eq_true]

theorem allSentOk_sockSend (sid : Nat) (f : OutFrame) (st : St)
    (h : allSentOk st = true) (hf : repoOkB f = true) :
    allSentOk (sockSend sid f st) = true := by
  rw [allSentOk_iff] at h ⊢
  intro sk hsk g hg
  simp only [sockSend] at hsk
  rcases List.mem_map.mp hsk with ⟨sk0, hsk0, rfl⟩
  by_cases hs : sk0.sid = sid
  · rw [if_pos hs] at hg
    have hg2 : g ∈ sk0.sent ++ [f] := hg
    rcases List.mem_append.mp hg2 with hgg | hgg
    · exact h sk0 hsk0 g hgg
    · simp at hgg
      rw [hgg]
      exact hf
  · rw [if_neg hs] at hg
    exact h sk0 hsk0 g hg

theorem allSentOk_setRs (sid r : Nat) (st : St) (h : allSentOk st = true) :
    allSentOk (setRs sid r st) = true := by
  rw [allSentOk_iff] at h ⊢
  intro sk hsk g hg
  simp only [setRs] at hsk
  rcases List.mem_map.mp hsk with ⟨sk0, hsk0, rfl⟩
  by_cases hs : sk0.sid = sid
  · rw [if_pos hs] at hg
    have hg2 : g ∈ sk0.sent := hg
    exact h sk0 hsk0 g hg2
  · rw [if_neg hs] at hg
    exact h sk0 hsk0 g hg

/-- Fact: `allSentOk` only inspects the socket registry. -/
theorem allSentOk_socks_congr {a b : St} (h : allSentOk b = true)
    (hs : a.socks = b.socks) : allSentOk a = true := by
  unfold allSentOk at h ⊢
  rw [hs]
  exact h

theorem allSentOk_connect (cfg : Config) (task : Option String) (st : St)
    (h : allSentOk st = true) :
    allSentOk (connect cfg task st) = true := by
  simp only [connect]
  split
  · exact h
  · rw [allSentOk_iff] at h ⊢
    intro sk hsk g hg
    have hsk2 : sk ∈ st.socks ++
        [Sock.mk st.nextSock 0 task
          (if cfg.token ≠ "" then cfg.wsBase ++ "?token=" ++ cfg.token else cfg.wsBase)
          []] := hsk
    rcases List.mem_append.mp hsk2 with hs | hs
    · exact h sk hs g hg
    · simp at hs
      rw [hs] at hg
      simp at hg

theorem allSentOk_stLog (c : String) (st : St) (h : allSentOk st = true) :
    allSentOk (stLog c st) = true := h

theorem allSentOk_stMsg (k : String) (c : JVal) (st : St) (h : allSentOk st = true) :
    allSentOk (stMsg k c st) = true := h

theorem allSentOk_onOpen (cfg : Config) (sid : Nat) (st : St) (h : allSentOk st = true) :
    allSentOk (onOpen cfg sid st) = true := by
  simp only [onOpen]
  split
  · exact h
  · rename_i sk heq
    split
    · exact h
    · have hsend : allSentOk (sockSend sid
          (OutFrame.handshake ⟨cfg.token, cfg.projectId, modelProviderOf cfg, "",
            sk.task.getD ""⟩) (setRs sid 1 st)) = true :=
        allSentOk_sockSend _ _ _ (allSentOk_setRs sid 1 st h) rfl
      split
      · split
        · exact allSentOk_socks_congr hsend rfl
        · exact allSentOk_socks_congr hsend rfl
      · exact allSentOk_socks_congr hsend rfl

theorem allSentOk_onClose (sid : Nat) (code : Int) (reason : String) (st : St)
    (h : allSentOk st = true) :
    allSentOk (onClose sid code reason st) = true := by
  simp only [onClose]
  split
  · exact h
  · split
    · exact h
    · split
      · exact allSentOk_socks_congr (allSentOk_setRs sid 3 st h) rfl
      · split
        · exact allSentOk_socks_congr (allSentOk_setRs sid 3 st h) rfl
        · exact allSentOk_socks_congr (allSentOk_setRs sid 3 st h) rfl

theorem allSentOk_fireTimer (cfg : Config) (tid : Nat) (st : St)
    (h : allSentOk st = true) :
    allSentOk (fireTimer cfg tid st) = true := by
  simp only [fireTimer]
  split
  · exact h
  · exact allSentOk_connect _ _ _ h

theorem allSentOk_onMessage (sid : Nat) (frame : Except String JVal) (st : St)
    (h : allSentOk st = true) :
    allSentOk (onMessage sid frame st) = true := by
  unfold allSentOk at h ⊢
  rw [(onMessage_preserves_transport sid frame st).1]
  exact h

theorem allSentOk_hbTick (st : St) (h : allSentOk st = true) :
    allSentOk (hbTickF st) = true := by
  simp only [hbTickF]
  split
  · split
    · split
      · split
        · exact allSentOk_sockSend _ _ _ h rfl
        · exact h
      · exact h
    · exact h
  · exact h

theorem allSentOk_sendMessageInternal (text : String) (st : St)
    (h : allSentOk st = true) :
    allSentOk (sendMessageInternal text st) = true := by
  simp only [sendMessageInternal]
  split
  · exact allSentOk_socks_congr h rfl
  · split
    · rename_i sid heq
      exact allSentOk_socks_congr
        (allSentOk_sockSend sid (OutFrame.action text) st h rfl) rfl
    · exact h

theorem allSentOk_startSession (cfg : Config) (task : Option String) (st : St)
    (h : allSentOk st = true) :
    allSentOk (startSession cfg task st) = true := by
  simp only [startSession]
  split
  · split
    · split
      · exact allSentOk_sendMessageInternal _ _ h
      · exact h
    · exact h
  · split
    · split
      · exact allSentOk_connect _ _ _ (allSentOk_stMsg _ _ _ h)
      · exact allSentOk_connect _ _ _ h
    · exact allSentOk_connect _ _ _ h

theorem allSentOk_stopSession (st : St) (h : allSentOk st = true) :
    allSentOk (stopSession st) = true := by
  simp only [stopSession]
  split
  · split
    · split
      · exact allSentOk_socks_congr (allSentOk_setRs _ 2 st h) rfl
      · exact allSentOk_socks_congr h rfl
    · exact allSentOk_socks_congr h rfl
  · exact allSentOk_socks_congr h rfl

theorem allSentOk_selectFile (p : String) (st : St) (h : allSentOk st = true) :
    allSentOk (selectFile p st) = true := by
  simp only [selectFile]
  split
  · exact h
  · exact h

theorem allSentOk_fetchFail (f : PFetch) (m : String) (st : St)
    (h : allSentOk st = true) :
    allSentOk (fetchFail f m st) = true := by
  simp only [fetchFail]
  split <;> first | exact h | (split <;> exact h)

theorem allSentOk_fetchDone (fid : Nat) (outcome : Except String JVal) (st : St)
    (h : allSentOk st = true) :
    allSentOk (fetchDoneF fid outcome st) = true := by
  simp only [fetchDoneF]
  split
  · exact h
  · split
    · split
      · exact allSentOk_fetchFail _ _ _ h
      · exact allSentOk_socks_congr h rfl
    · exact allSentOk_fetchFail _ _ _ h

theorem step_preserves_allSentOk (cfg : Config) (ev : Ev) (st : St)
    (h : allSentOk st = true) :
    allSentOk (step cfg ev st) = true := by
  cases ev with
  | uStart task => exact allSentOk_startSession cfg task st h
  | uSend text =>
    simp only [step, sendMessage]
    split
    · exact h
    · split
      · exact allSentOk_startSession _ _ _ h
      · exact allSentOk_sendMessageInternal _ _ h
  | uStop => exact allSentOk_stopSession st h
  | uSelect p => exact allSentOk_selectFile p st h
  | wsOpen sid => exact allSentOk_onOpen cfg sid st h
  | wsClose sid code reason => exact allSentOk_onClose sid code reason st h
  | wsMsg sid frame => exact allSentOk_onMessage sid frame st h
  | wsErr => exact allSentOk_stLog _ _ h
  | timerFire tid => exact allSentOk_fireTimer cfg tid st h
  | hbTick => exact allSentOk_hbTick st h
  | fetchDone fid out => exact allSentOk_fetchDone fid out st h

theorem runEvents_allSentOk (cfg : Config) (evs : List Ev) :
    ∀ st, allSentOk st = true → allSentOk (runEvents cfg evs st) = true := by
  induction evs with
  | nil => intro st h; exact h
  | cons e rest ih =>
    intro st h
    exact ih _ (step_preserves_allSentOk cfg e st h)

/-- C10: starting from the initial state, no reachable behaviour ever
sends a handshake frame whose `repoUrl` differs from the empty string —
the field is the literal `''` on the only code path that builds a
handshake, regardless of `projectId`, `token`, task, or stored
model-provider selection. -/
theorem handshake_repoUrl_always_empty (cfg : Config) (evs : List Ev) :
    ∀ sk ∈ (runEvents cfg evs initSt).socks, ∀ hs : Handshake,
      OutFrame.handshake hs ∈ sk.sent → hs.repoUrl = "" := by
  intro sk hsk hs hf
  have h := runEvents_allSentOk cfg evs initSt rfl
  rw [allSentOk_iff] at h
  have hr := h sk hsk _ hf
  simpa [repoOkB] using hr

/-- C10 (witness). -/
theorem handshake_repoUrl_always_empty_witness :
    ({ token := "", projectId := "p1", modelProvider := "google", repoUrl := "",
       task := "t" } : Handshake).repoUrl = "" :=
  handshake_repoUrl_always_empty cfg0 [Ev.uStart (some "t"), Ev.wsOpen 0]
    { sid := 0, rs := 1, task := some "t", url := "ws://localhost:8000/ws",
      sent := [OutFrame.handshake
        { token := "", projectId := "p1", modelProvider := "google", repoUrl := "",
          task := "t" }] }
    (by decide) _ (by decide)
